import Mathlib

/-!
Shallow embedding of the account-service core of `src/main.py`
(GrowDoctor light freemium backend): registration, email verification,
login, session-token issuance and the `/auth/me` endpoint.

Modelling conventions:
* The SQL tables `users` and `email_verification_tokens` become lists of
  records inside a `DB` structure.  `SELECT ... WHERE c = :v ... .first()`
  is `List.find?`, `DELETE WHERE` is `List.filter`, `UPDATE WHERE` is
  `List.map` with a conditional update.  The `UNIQUE`/`PRIMARY KEY`
  constraint on `users` (which surfaces as `IntegrityError` in the code)
  is modelled as an explicit membership test before the insert.
* Times are epoch seconds as `Nat` (the code uses `int(time.time())`).
* `bcrypt` hashing is opaque: `hash_pw` and `verify_pw` are passed in as
  function parameters (`hashPw`, `vpw`).
* A JWT is modelled by its payload (`JwtPayload`); signing and encoding
  are cryptographic details outside the embedding.  `decode_jwt` yielding
  a claims dict for a valid token corresponds to `some payload`.
* Python exceptions that escape a function are `Except.error ()`.
  The external SendGrid HTTP call is a parameter `resp : Option Nat`:
  `some s` models the provider answering with status code `s`, `none`
  models `requests.post` itself raising (timeout, connection error).
* Environment configuration strings use `""` for "unset" (Python's
  falsiness test `not SENDGRID_API_KEY` treats `None` and `""` alike).
* Fresh random identifiers (`secrets.token_hex`, `secrets.token_urlsafe`)
  are parameters `uid`, `tok`; their freshness as primary keys of the
  ticket table is assumed, matching their cryptographic randomness.
-/

/-- A row of the `users` table (src/main.py, `init_db`). -/
structure User where
  id : String
  email : String
  password_hash : String
  email_verified : Bool
  created_at : String
deriving Repr, DecidableEq

/-- A row of the `email_verification_tokens` table. -/
structure Ticket where
  token : String
  user_id : String
  expires_at : Nat
deriving Repr, DecidableEq

/-- The persistent store: both tables. -/
structure DB where
  users : List User
  tickets : List Ticket
deriving Repr, DecidableEq

/-- The response envelope used by every route: `ok(data)` or
`err(code)` (src/main.py, helpers `ok`/`err`). -/
inductive Resp (α : Type) where
  | ok (data : α)
  | err (code : String)
deriving Repr, DecidableEq

/-- The claims of a session token (src/main.py, `make_jwt` payload). -/
structure JwtPayload where
  sub : String
  email : String
  email_verified : Bool
  exp : Nat
deriving Repr, DecidableEq

/-- Decidable equality for `Except`, so that concrete runs of the model
can be checked by `decide`. -/
instance {ε α : Type} [DecidableEq ε] [DecidableEq α] : DecidableEq (Except ε α) := fun a b =>
  match a, b with
  | .error e, .error f =>
    if h : e = f then .isTrue (congrArg Except.error h)
    else .isFalse (fun hc => h (Except.error.inj hc))
  | .ok x, .ok y =>
    if h : x = y then .isTrue (congrArg Except.ok h)
    else .isFalse (fun hc => h (Except.ok.inj hc))
  | .error _, .ok _ => .isFalse (fun hc => Except.noConfusion hc)
  | .ok _, .error _ => .isFalse (fun hc => Except.noConfusion hc)

/-- Email normalisation used by `register` and `login`:
`email.lower().strip()`.  Implemented over the character list (lowercase
every character, then drop leading and trailing whitespace) so that it
evaluates by kernel reduction; `Char.toLower` agrees with Python's
`str.lower` on ASCII input. -/
def normEmail (email : String) : String :=
  let lowered := email.data.map Char.toLower
  ⟨((lowered.dropWhile Char.isWhitespace).reverse.dropWhile Char.isWhitespace).reverse⟩

/-- `make_jwt(user_id, email, email_verified, remember)`: raises if
`JWT_SECRET` is unset, otherwise builds the payload with
`exp = int(time.time()) + 60*60*24*(30 if remember else 1)`. -/
def make_jwt (jwtSecret : String) (now : Nat) (user_id email : String)
    (email_verified : Bool) (remember : Bool) : Except Unit JwtPayload :=
  if jwtSecret = "" then .error ()
  else .ok ⟨user_id, email, email_verified, now + 60 * 60 * 24 * (if remember then 30 else 1)⟩

/-- `send_verify_mail(email, link)`: returns `False` when the SendGrid
API key or sender address is unset; otherwise performs the HTTP POST
(`resp`: `some s` is a provider status code, `none` is the request
raising) and returns whether the status is 2xx.  There is no
`try`/`except` around the POST in the source. -/
def send_verify_mail (apiKey sendFrom : String) (resp : Option Nat) : Except Unit Bool :=
  if apiKey = "" ∨ sendFrom = "" then .ok false
  else
    match resp with
    | none => .error ()
    | some s => .ok (decide (200 ≤ s ∧ s < 300))

/-- `register(email, password)` (src/main.py lines 149-181).  Returns the
response (or an escaped exception) together with the store after the
call; the inserts performed before a mail failure are kept, matching the
code, which never rolls them back. -/
def register (appBaseUrl apiKey sendFrom : String) (mailResp : Option Nat)
    (hashPw : String → String) (uid tok ts : String) (now : Nat)
    (db : DB) (email password : String) : Except Unit (Resp String) × DB :=
  let email := normEmail email
  if ¬ email.data.contains '@' ∨ password.length < 8 then
    (.ok (.err "INVALID_INPUT"), db)
  else if db.users.any (fun u => u.email = email ∨ u.id = uid) then
    -- the INSERT violates the UNIQUE(email) / PRIMARY KEY(id) constraint:
    -- IntegrityError is caught and mapped to EMAIL_EXISTS
    (.ok (.err "EMAIL_EXISTS"), db)
  else
    let db1 : DB := { db with users := db.users ++ [⟨uid, email, hashPw password, false, ts⟩] }
    let db2 : DB := { db1 with tickets := db1.tickets ++ [⟨tok, uid, now + 86400⟩] }
    if appBaseUrl = "" then (.ok (.err "APP_BASE_URL_MISSING"), db2)
    else
      match send_verify_mail apiKey sendFrom mailResp with
      | .error e => (.error e, db2)
      | .ok sent =>
        if ¬ sent then (.ok (.err "MAIL_FAILED"), db2)
        else (.ok (.ok "Bitte E-Mail bestätigen"), db2)

/-- `verify_email(token)` (src/main.py lines 183-199): look the ticket
up; `INVALID_TOKEN` if absent, `TOKEN_EXPIRED` if `expires_at < now`
(store untouched); otherwise set the owner's `email_verified`, delete
the ticket and report success. -/
def verify_email (now : Nat) (db : DB) (token : String) : Resp String × DB :=
  match db.tickets.find? (fun t => t.token = token) with
  | none => (.err "INVALID_TOKEN", db)
  | some row =>
    if row.expires_at < now then (.err "TOKEN_EXPIRED", db)
    else
      (.ok "E-Mail bestätigt",
       { users := db.users.map (fun u =>
           if u.id = row.user_id then { u with email_verified := true } else u),
         tickets := db.tickets.filter (fun t => ¬ t.token = token) })

/-- `login(email, password, remember_me)` (src/main.py lines 201-215).
`vpw` is `verify_pw`.  The success payload is the issued token's
claims. -/
def login (jwtSecret : String) (vpw : String → String → Bool) (now : Nat)
    (db : DB) (email password : String) (remember_me : Bool) :
    Except Unit (Resp JwtPayload) :=
  let email := normEmail email
  match db.users.find? (fun u => u.email = email) with
  | none => .ok (.err "INVALID_CREDENTIALS")
  | some row =>
    if ¬ vpw password row.password_hash then .ok (.err "INVALID_CREDENTIALS")
    else if ¬ row.email_verified then .ok (.err "EMAIL_NOT_VERIFIED")
    else (make_jwt jwtSecret now row.id row.email row.email_verified remember_me).map .ok

/-- `require_user` dependency: `AUTH_REQUIRED` when no valid token was
decoded, otherwise the claims.  `user = some p` models a request whose
bearer token decoded to payload `p`. -/
def require_user (user : Option JwtPayload) : Resp JwtPayload :=
  match user with
  | none => .err "AUTH_REQUIRED"
  | some u => .ok u

/-- `require_verified` dependency (src/main.py lines 140-143): on top of
`require_user`, reject claims whose `email_verified` is false.  Defined
in the source but not used by the `/auth/me` route. -/
def require_verified (user : Option JwtPayload) : Resp JwtPayload :=
  match require_user user with
  | .err c => .err c
  | .ok u => if ¬ u.email_verified then .err "EMAIL_NOT_VERIFIED" else .ok u

/-- `me` route (src/main.py lines 217-221): built on `Depends(require_user)`;
an error envelope (`ok: False`) passes through, otherwise the identity
from the claims is returned. -/
def me (user : Option JwtPayload) : Resp (String × Bool) :=
  match require_user user with
  | .err c => .err c
  | .ok u => .ok (u.email, u.email_verified)

/-- No two rows of the `users` table share an email. -/
def EmailUnique (db : DB) : Prop :=
  db.users.Pairwise (fun u v => u.email ≠ v.email)

/-! ### Sample data used by witnesses -/

/-- A model of `verify_pw`: the stored hash of `p` is `p ++ "#h"`. -/
def vpwC : String → String → Bool := fun p h => h = p ++ "#h"

/-- A verified sample user. -/
def userVerified : User := ⟨"u1", "a@b.com", "pw#h", true, "ts"⟩

/-- An unverified sample user. -/
def userUnverified : User := ⟨"u1", "a@b.com", "pw#h", false, "ts"⟩

/-- Store holding the verified sample user. -/
def dbVerified : DB := ⟨[userVerified], []⟩

/-- Store holding the unverified sample user and a pending ticket
expiring at 500. -/
def dbPending : DB := ⟨[userUnverified], [⟨"tok1", "u1", 500⟩]⟩

/-! ### Claims -/

/-- C1, counterexample: a valid session token whose `email_verified`
claim is false does NOT make `/auth/me` answer `EMAIL_NOT_VERIFIED`:
the route is built on `require_user` only, so the identity is returned. -/
theorem me_unverified_counterexample :
    (JwtPayload.mk "u1" "a@b.com" false 1000).email_verified = false ∧
    me (some (JwtPayload.mk "u1" "a@b.com" false 1000)) = .ok ("a@b.com", false) ∧
    me (some (JwtPayload.mk "u1" "a@b.com" false 1000)) ≠ .err "EMAIL_NOT_VERIFIED" := by
  decide

/-- C1, amended: `/auth/me` with a valid session token returns the
identity (email, `email_verified` snapshot) from the claims, whether or
not the snapshot is false; the `require_verified` guard is not applied
to this route. -/
theorem me_returns_claims (p : JwtPayload) :
    me (some p) = .ok (p.email, p.email_verified) := rfl

/-- C2, counterexample: with the mail configuration present, a raising
HTTP call (`resp = none`, e.g. a timeout) escapes `send_verify_mail`
as an exception instead of returning `false` — there is no
`try`/`except` in the source, so "never throws past its own boundary"
fails. -/
theorem send_verify_mail_throws_counterexample :
    send_verify_mail "key" "sender" none = .error () := rfl

/-- C2, amended: `send_verify_mail` returns `false` when the API key or
sender address is missing, and when the provider answers with a
non-2xx status; but when the configuration is present and the HTTP call
itself raises, the exception propagates past the function (it throws
exactly in that case). -/
theorem send_verify_mail_result (apiKey sendFrom : String) (resp : Option Nat) :
    ((apiKey = "" ∨ sendFrom = "") → send_verify_mail apiKey sendFrom resp = .ok false) ∧
    (∀ s, resp = some s → ¬ (200 ≤ s ∧ s < 300) →
      send_verify_mail apiKey sendFrom resp = .ok false) ∧
    (send_verify_mail apiKey sendFrom resp = .error () ↔
      apiKey ≠ "" ∧ sendFrom ≠ "" ∧ resp = none) := by
  refine ⟨fun h => by rw [send_verify_mail.eq_def, if_pos h], ?_, ?_⟩
  · intro s hs hns
    by_cases hc : apiKey = "" ∨ sendFrom = ""
    · rw [send_verify_mail.eq_def, if_pos hc]
    · rw [send_verify_mail.eq_def, if_neg hc, hs]
      simp only []
      rw [decide_eq_false hns]
  · constructor
    · intro h
      by_cases hc : apiKey = "" ∨ sendFrom = ""
      · rw [send_verify_mail.eq_def, if_pos hc] at h
        exact absurd h (by simp)
      · push_neg at hc
        refine ⟨hc.1, hc.2, ?_⟩
        cases hr : resp with
        | none => rfl
        | some s =>
          rw [send_verify_mail.eq_def, if_neg (not_or.mpr hc), hr] at h
          exact absurd h (by simp)
    · rintro ⟨h1, h2, rfl⟩
      rw [send_verify_mail.eq_def, if_neg (not_or.mpr ⟨h1, h2⟩)]

/-- C2 witness: instance of `send_verify_mail_result` at concrete
inputs. -/
theorem send_verify_mail_result_witness :
    send_verify_mail "" "sender" (some 200) = .ok false ∧
    send_verify_mail "key" "sender" (some 500) = .ok false ∧
    (send_verify_mail "key" "sender" none = .error () ↔
      ("key" : String) ≠ "" ∧ ("sender" : String) ≠ "" ∧ (none : Option Nat) = none) :=
  ⟨(send_verify_mail_result "" "sender" (some 200)).1 (Or.inl rfl),
   (send_verify_mail_result "key" "sender" (some 500)).2.1 500 rfl (by decide),
   (send_verify_mail_result "key" "sender" none).2.2⟩

/-- C8: a token issued at `now` expires at exactly `now + 86400` when
`remember` is false and `now + 2592000` when `remember` is true. -/
theorem make_jwt_expiry (jwtSecret : String) (now : Nat) (uid em : String) (ev : Bool)
    (hs : jwtSecret ≠ "") :
    make_jwt jwtSecret now uid em ev false = .ok ⟨uid, em, ev, now + 86400⟩ ∧
    make_jwt jwtSecret now uid em ev true = .ok ⟨uid, em, ev, now + 2592000⟩ := by
  constructor <;> (rw [make_jwt, if_neg hs]; norm_num)

/-- C8 witness: `make_jwt_expiry` at concrete inputs. -/
theorem make_jwt_expiry_witness :
    make_jwt "s" 1000 "u1" "a@b.com" true false = .ok ⟨"u1", "a@b.com", true, 87400⟩ ∧
    make_jwt "s" 1000 "u1" "a@b.com" true true = .ok ⟨"u1", "a@b.com", true, 2593000⟩ :=
  make_jwt_expiry "s" 1000 "u1" "a@b.com" true (by decide)

/-- C6: a password shorter than 8 characters or a normalized email
without `@` yields `INVALID_INPUT` and leaves the store unchanged. -/
theorem register_invalid_input (appBaseUrl apiKey sendFrom : String) (mailResp : Option Nat)
    (hashPw : String → String) (uid tok ts : String) (now : Nat) (db : DB)
    (email password : String)
    (h : ¬ (normEmail email).data.contains '@' ∨ password.length < 8) :
    register appBaseUrl apiKey sendFrom mailResp hashPw uid tok ts now db email password
      = (.ok (.err "INVALID_INPUT"), db) := by
  simp only [register]
  rw [if_pos h]

/-- C6 witness: `register_invalid_input` at concrete inputs (an email
without `@`, and separately a 7-character password). -/
theorem register_invalid_input_witness :
    register "base" "key" "sender" (some 202) (fun s => s ++ "#h") "u1" "t1" "ts" 0
      ⟨[], []⟩ "ab.com" "password1" = (.ok (.err "INVALID_INPUT"), ⟨[], []⟩) ∧
    register "base" "key" "sender" (some 202) (fun s => s ++ "#h") "u1" "t1" "ts" 0
      ⟨[], []⟩ "a@b.com" "short67" = (.ok (.err "INVALID_INPUT"), ⟨[], []⟩) :=
  ⟨register_invalid_input "base" "key" "sender" (some 202) (fun s => s ++ "#h") "u1" "t1" "ts" 0
     ⟨[], []⟩ "ab.com" "password1" (Or.inl (by decide)),
   register_invalid_input "base" "key" "sender" (some 202) (fun s => s ++ "#h") "u1" "t1" "ts" 0
     ⟨[], []⟩ "a@b.com" "short67" (Or.inr (by decide))⟩

/-- C4: when the ticket matching the token has `expires_at < now`,
`verify_email` answers `TOKEN_EXPIRED` and the store is unchanged (the
ticket stays, no user flag is touched). -/
theorem verify_email_expired (now : Nat) (db : DB) (token : String) (tk : Ticket)
    (hfind : db.tickets.find? (fun t => t.token = token) = some tk)
    (hexp : tk.expires_at < now) :
    verify_email now db token = (.err "TOKEN_EXPIRED", db) := by
  simp only [verify_email, hfind]
  rw [if_pos hexp]

/-- C4 witness: `verify_email_expired` on `dbPending` past the ticket's
expiry. -/
theorem verify_email_expired_witness :
    verify_email 600 dbPending "tok1" = (.err "TOKEN_EXPIRED", dbPending) :=
  verify_email_expired 600 dbPending "tok1" ⟨"tok1", "u1", 500⟩ (by decide) (by decide)

/-- C5: `login` answers `INVALID_CREDENTIALS` both for an unknown
normalized email and for a password mismatch, `EMAIL_NOT_VERIFIED`
exactly when the user exists, the password matches and the flag is
false, and a session token on success. -/
theorem login_cases (jwtSecret : String) (vpw : String → String → Bool) (now : Nat)
    (db : DB) (email password : String) (remember : Bool)
    (hs : jwtSecret ≠ "") :
    (db.users.find? (fun u => u.email = normEmail email) = none →
      login jwtSecret vpw now db email password remember = .ok (.err "INVALID_CREDENTIALS")) ∧
    (∀ row, db.users.find? (fun u => u.email = normEmail email) = some row →
      vpw password row.password_hash = false →
      login jwtSecret vpw now db email password remember = .ok (.err "INVALID_CREDENTIALS")) ∧
    (∀ row, db.users.find? (fun u => u.email = normEmail email) = some row →
      vpw password row.password_hash = true →
      row.email_verified = false →
      login jwtSecret vpw now db email password remember = .ok (.err "EMAIL_NOT_VERIFIED")) ∧
    (∀ row, db.users.find? (fun u => u.email = normEmail email) = some row →
      vpw password row.password_hash = true →
      row.email_verified = true →
      login jwtSecret vpw now db email password remember
        = .ok (.ok ⟨row.id, row.email, true,
                    now + 60 * 60 * 24 * (if remember then 30 else 1)⟩)) := by
  refine ⟨fun hf => ?_, fun row hf hp => ?_, fun row hf hp hv => ?_, fun row hf hp hv => ?_⟩
  · simp only [login, hf]
  · simp only [login, hf, hp]
    simp
  · simp only [login, hf, hp, hv]
    simp
  · simp only [login, hf, hp, hv]
    simp [make_jwt, hs, Except.map]

/-- C5 witness: `login_cases` instantiated on concrete stores — unknown
email, wrong password, unverified user, and a successful login. -/
theorem login_cases_witness :
    login "s" vpwC 100 dbVerified "x@y.com" "pw" false = .ok (.err "INVALID_CREDENTIALS") ∧
    login "s" vpwC 100 dbVerified "a@b.com" "wrongpass" false = .ok (.err "INVALID_CREDENTIALS") ∧
    login "s" vpwC 100 dbPending "a@b.com" "pw" false = .ok (.err "EMAIL_NOT_VERIFIED") ∧
    login "s" vpwC 100 dbVerified "a@b.com" "pw" false = .ok (.ok ⟨"u1", "a@b.com", true, 86500⟩) :=
  ⟨(login_cases "s" vpwC 100 dbVerified "x@y.com" "pw" false (by decide)).1 (by decide),
   (login_cases "s" vpwC 100 dbVerified "a@b.com" "wrongpass" false (by decide)).2.1
     userVerified (by decide) (by decide),
   (login_cases "s" vpwC 100 dbPending "a@b.com" "pw" false (by decide)).2.2.1
     userUnverified (by decide) (by decide) (by decide),
   (login_cases "s" vpwC 100 dbVerified "a@b.com" "pw" false (by decide)).2.2.2
     userVerified (by decide) (by decide) (by decide)⟩

/-- C10: every token issued by a successful `login` carries
`email_verified = true` (login rejects unverified users first), so
`/auth/me` on such a token reports a true flag. -/
theorem login_token_verified (jwtSecret : String) (vpw : String → String → Bool) (now : Nat)
    (db : DB) (email password : String) (remember : Bool) (p : JwtPayload)
    (h : login jwtSecret vpw now db email password remember = .ok (.ok p)) :
    p.email_verified = true ∧ me (some p) = .ok (p.email, true) := by
  have hv : p.email_verified = true := by
    simp only [login] at h
    cases hf : db.users.find? (fun u => u.email = normEmail email) with
    | none => rw [hf] at h; exact absurd h (by simp)
    | some row =>
      rw [hf] at h
      simp only [] at h
      by_cases hp : vpw password row.password_hash
      · rw [if_neg (by simp [hp])] at h
        by_cases hrv : row.email_verified
        · rw [if_neg (by simp [hrv])] at h
          by_cases hsec : jwtSecret = ""
          · rw [make_jwt, if_pos hsec] at h
            exact absurd h (by simp [Except.map])
          · rw [make_jwt, if_neg hsec] at h
            simp only [Except.map] at h
            have hp2 := Resp.ok.inj (Except.ok.inj h)
            rw [← hp2, hrv]
        · rw [if_pos (by simp [hrv])] at h
          exact absurd h (by simp)
      · rw [if_pos (by simp [hp])] at h
        exact absurd h (by simp)
  exact ⟨hv, by rw [show me (some p) = .ok (p.email, p.email_verified) from rfl, hv]⟩

/-- C10 witness: `login_token_verified` on a concrete successful
login. -/
theorem login_token_verified_witness :
    (JwtPayload.mk "u1" "a@b.com" true 86500).email_verified = true ∧
    me (some (JwtPayload.mk "u1" "a@b.com" true 86500)) = .ok ("a@b.com", true) :=
  login_token_verified "s" vpwC 100 dbVerified "a@b.com" "pw" false
    ⟨"u1", "a@b.com", true, 86500⟩ (by decide)

/-- C3: a successful `verify_email` marks the ticket's owner verified,
removes the ticket, and a second consumption of the same token at any
later time answers `INVALID_TOKEN`. -/
theorem verify_email_consume_once (now now2 : Nat) (db : DB) (token m : String) (db' : DB)
    (hsucc : verify_email now db token = (.ok m, db')) :
    (∀ tk, db.tickets.find? (fun t => t.token = token) = some tk →
      ∀ u ∈ db'.users, u.id = tk.user_id → u.email_verified = true) ∧
    (∀ t ∈ db'.tickets, t.token ≠ token) ∧
    verify_email now2 db' token = (.err "INVALID_TOKEN", db') := by
  cases hf : db.tickets.find? (fun t => t.token = token) with
  | none =>
    rw [verify_email, hf] at hsucc
    exact absurd hsucc (by simp)
  | some row =>
    simp only [verify_email, hf] at hsucc
    by_cases hexp : row.expires_at < now
    · rw [if_pos hexp] at hsucc
      exact absurd hsucc (by simp)
    · rw [if_neg hexp] at hsucc
      rw [Prod.mk.injEq] at hsucc
      obtain ⟨-, hdb⟩ := hsucc
      subst hdb
      refine ⟨?_, ?_, ?_⟩
      · intro tk htk u hu hid
        obtain rfl := Option.some.inj htk
        rw [List.mem_map] at hu
        obtain ⟨u0, hu0, rfl⟩ := hu
        by_cases h0 : u0.id = row.user_id
        · simp [h0]
        · rw [if_neg h0] at hid ⊢
          exact absurd hid h0
      · intro t ht
        have := List.of_mem_filter ht
        simpa using this
      · have hnone : (List.filter (fun t => decide ¬ t.token = token) db.tickets).find?
            (fun t => t.token = token) = none := by
          rw [List.find?_eq_none]
          intro t ht
          have := List.of_mem_filter ht
          simpa using this
        simp only [verify_email, hnone]

/-- C3 witness: `verify_email_consume_once` on a concrete run; the
second consumption of `"tok1"` fails with `INVALID_TOKEN`. -/
theorem verify_email_consume_once_witness :
    verify_email 600 ⟨[⟨"u1", "a@b.com", "pw#h", true, "ts"⟩], []⟩ "tok1"
      = (.err "INVALID_TOKEN", ⟨[⟨"u1", "a@b.com", "pw#h", true, "ts"⟩], []⟩) :=
  (verify_email_consume_once 100 600 dbPending "tok1" "E-Mail bestätigt"
    ⟨[⟨"u1", "a@b.com", "pw#h", true, "ts"⟩], []⟩ (by decide)).2.2

/-- C9: when `register` answers `MAIL_FAILED`, the freshly inserted
user row and its verification ticket are still in the store —
registration is not rolled back on mail failure. -/
theorem register_mail_failed_persists (appBaseUrl apiKey sendFrom : String)
    (mailResp : Option Nat) (hashPw : String → String) (uid tok ts : String) (now : Nat)
    (db : DB) (email password : String) (db' : DB)
    (h : register appBaseUrl apiKey sendFrom mailResp hashPw uid tok ts now db email password
          = (.ok (.err "MAIL_FAILED"), db')) :
    (⟨uid, normEmail email, hashPw password, false, ts⟩ : User) ∈ db'.users ∧
    (⟨tok, uid, now + 86400⟩ : Ticket) ∈ db'.tickets := by
  simp only [register] at h
  split_ifs at h with h1 h2 h3
  · rw [Prod.mk.injEq] at h
    exact absurd h.1 (by decide)
  · rw [Prod.mk.injEq] at h
    exact absurd h.1 (by decide)
  · rw [Prod.mk.injEq] at h
    exact absurd h.1 (by decide)
  · cases hm : send_verify_mail apiKey sendFrom mailResp with
    | error e =>
      rw [hm] at h
      simp at h
    | ok sent =>
      rw [hm] at h
      cases sent with
      | true => simp at h
      | false =>
        rw [Prod.mk.injEq] at h
        obtain ⟨-, hdb⟩ := h
        subst hdb
        constructor <;> simp

/-- C9 witness: `register_mail_failed_persists` on a concrete run where
the provider answers 500; user and ticket are still stored. -/
theorem register_mail_failed_persists_witness :
    (⟨"u1", normEmail "a@b.com", (fun s => s ++ "#h") "password1", false, "ts"⟩ : User)
      ∈ (DB.mk [⟨"u1", "a@b.com", "password1#h", false, "ts"⟩] [⟨"t1", "u1", 86400⟩]).users ∧
    (⟨"t1", "u1", 86400⟩ : Ticket)
      ∈ (DB.mk [⟨"u1", "a@b.com", "password1#h", false, "ts"⟩] [⟨"t1", "u1", 86400⟩]).tickets :=
  register_mail_failed_persists "base" "key" "sender" (some 500) (fun s => s ++ "#h")
    "u1" "t1" "ts" 0 ⟨[], []⟩ "a@b.com" "password1"
    ⟨[⟨"u1", "a@b.com", "password1#h", false, "ts"⟩], [⟨"t1", "u1", 86400⟩]⟩ (by decide)

/-- Case analysis on the store component of a `register` call: either
the store is unchanged, or (when neither validation nor the uniqueness
constraint stopped the insert) the new user row and ticket are
appended. -/
theorem register_state (appBaseUrl apiKey sendFrom : String) (mailResp : Option Nat)
    (hashPw : String → String) (uid tok ts : String) (now : Nat)
    (db : DB) (email password : String) :
    (register appBaseUrl apiKey sendFrom mailResp hashPw uid tok ts now db email password).2 = db ∨
    (¬ db.users.any (fun u => u.email = normEmail email ∨ u.id = uid) = true ∧
     (register appBaseUrl apiKey sendFrom mailResp hashPw uid tok ts now db email password).2
       = ⟨db.users ++ [⟨uid, normEmail email, hashPw password, false, ts⟩],
          db.tickets ++ [⟨tok, uid, now + 86400⟩]⟩) := by
  simp only [register]
  split_ifs with h1 h2 h3
  · left; rfl
  · left; rfl
  · right; exact ⟨h2, rfl⟩
  · right
    refine ⟨h2, ?_⟩
    cases send_verify_mail apiKey sendFrom mailResp with
    | error e => rfl
    | ok sent => cases sent <;> rfl

/-- C7: registering an email already present (after normalisation)
yields `EMAIL_EXISTS` and leaves the store unchanged, and `register`
preserves the email-uniqueness invariant of the user table. -/
theorem register_unique_email (appBaseUrl apiKey sendFrom : String) (mailResp : Option Nat)
    (hashPw : String → String) (uid tok ts : String) (now : Nat)
    (db : DB) (email password : String) :
    ((normEmail email).data.contains '@' = true → ¬ password.length < 8 →
      (∃ u ∈ db.users, u.email = normEmail email) →
      register appBaseUrl apiKey sendFrom mailResp hashPw uid tok ts now db email password
        = (.ok (.err "EMAIL_EXISTS"), db)) ∧
    (EmailUnique db →
      ∀ r db', register appBaseUrl apiKey sendFrom mailResp hashPw uid tok ts now db email password
        = (r, db') → EmailUnique db') := by
  constructor
  · intro hc hl hdup
    obtain ⟨u, hu, he⟩ := hdup
    simp only [register]
    rw [if_neg (not_or.mpr ⟨not_not_intro hc, hl⟩),
        if_pos (List.any_eq_true.mpr ⟨u, hu, decide_eq_true (Or.inl he)⟩)]
  · intro huniq r db' hreg
    have hsnd : db'
        = (register appBaseUrl apiKey sendFrom mailResp hashPw uid tok ts now db email password).2 := by
      rw [hreg]
    rcases register_state appBaseUrl apiKey sendFrom mailResp hashPw uid tok ts now db
        email password with hcase | ⟨h2, hcase⟩
    · rw [hsnd, hcase]; exact huniq
    · rw [hsnd, hcase]
      unfold EmailUnique at huniq ⊢
      rw [List.pairwise_append]
      refine ⟨huniq, List.pairwise_singleton _ _, ?_⟩
      intro a ha b hb
      have hb' : b = ⟨uid, normEmail email, hashPw password, false, ts⟩ := by
        simpa using hb
      rw [hb']
      intro hcontra
      exact h2 (List.any_eq_true.mpr ⟨a, ha, decide_eq_true (Or.inl hcontra)⟩)

/-- C7 witness: a duplicate registration of `a@b.com` against a store
already holding that email answers `EMAIL_EXISTS` and changes nothing,
and a successful registration of a fresh email keeps the user emails
pairwise distinct. -/
theorem register_unique_email_witness :
    register "base" "key" "sender" (some 202) (fun s => s ++ "#h") "u2" "t2" "ts" 0
      dbVerified "a@b.com" "password1" = (.ok (.err "EMAIL_EXISTS"), dbVerified) ∧
    EmailUnique ⟨[userVerified, ⟨"u2", normEmail "x@y.com", "password1#h", false, "ts"⟩],
                 [⟨"t2", "u2", 86400⟩]⟩ :=
  ⟨(register_unique_email "base" "key" "sender" (some 202) (fun s => s ++ "#h") "u2" "t2" "ts" 0
      dbVerified "a@b.com" "password1").1 (by decide) (by decide)
      ⟨userVerified, by simp [dbVerified], by decide⟩,
   (register_unique_email "base" "key" "sender" (some 202) (fun s => s ++ "#h") "u2" "t2" "ts" 0
      dbVerified "x@y.com" "password1").2
      (by unfold EmailUnique dbVerified
          exact List.pairwise_singleton _ _) _ _ rfl⟩
